import Mathlib

/- Shallow embedding of the hotel-matching core of src/main.py.
   Python strings are modelled as Lean String (List Char); Python None as Option;
   floats as rationals, with Option encoding the float inf sentinel returned by
   calculate_distance.  External collaborators (fuzzywuzzy token_sort_ratio,
   geopy geodesic, the OpenAI chat replies) are oracle parameters of the
   embedded functions. -/

-- Python truthiness and whitespace

def pyIsSpace (c : Char) : Bool :=
  c == ' ' || c == '\t' || c == '\n' || c == '\r' || c.toNat == 11 || c.toNat == 12

def truthyStr : Option String → Bool
  | none => false
  | some s => !s.data.isEmpty

def truthyCoord : Option ℚ → Bool
  | none => false
  | some x => decide (x ≠ 0)

def pyStripChars (l : List Char) : List Char :=
  ((l.dropWhile pyIsSpace).reverse.dropWhile pyIsSpace).reverse

def pyStrip (s : String) : String :=
  String.mk (pyStripChars s.data)

def pyLower (s : String) : String :=
  String.mk (s.data.map Char.toLower)

-- Regex word-boundary machinery modelling re.sub with escaped literal words.
-- A word boundary sits between two positions whose word-character status differs;
-- positions outside the string count as non-word.

def isWordChar (c : Char) : Bool := c.isAlphanum || c == '_'

def optWordChar : Option Char → Bool
  | none => false
  | some c => isWordChar c

def isBoundary (a b : Option Char) : Bool := optWordChar a != optWordChar b

-- case-insensitive literal match (re.IGNORECASE), returning the remainder
def litMatchCI : List Char → List Char → Option (List Char)
  | [], s => some s
  | _ :: _, [] => none
  | c :: w, d :: s => if c.toLower == d.toLower then litMatchCI w s else none

-- match of the pattern (word boundary, literal w, word boundary) at the head of s,
-- given the character just before s in the original string
def tokMatchAt (w : List Char) (prev : Option Char) (s : List Char) : Option (List Char) :=
  match w with
  | [] => none
  | _ :: _ =>
    if isBoundary prev s.head? then
      match litMatchCI w s with
      | some after => if isBoundary w.getLast? after.head? then some after else none
      | none => none
    else none

def newPrev (w spaces : List Char) : Option Char :=
  match spaces.getLast? with
  | some c => some c
  | none => w.getLast?

-- left-to-right scan of re.sub for the word pattern; trailWs adds the trailing
-- whitespace-star used for remove_words.  Fuel is the structural-recursion bound;
-- every step consumes at least one character, so length + 1 fuel is exact.
def subTokGo (w : List Char) (trailWs : Bool) : Nat → Option Char → List Char → List Char
  | 0, _, s => s
  | _ + 1, _, [] => []
  | fuel + 1, prev, c :: rest =>
    match tokMatchAt w prev (c :: rest) with
    | some after =>
      if trailWs then
        subTokGo w trailWs fuel (newPrev w (after.takeWhile pyIsSpace)) (after.dropWhile pyIsSpace)
      else
        subTokGo w trailWs fuel w.getLast? after
    | none => c :: subTokGo w trailWs fuel (some c) rest

def pySubTok (w : String) (trailWs : Bool) (s : String) : String :=
  String.mk (subTokGo w.data trailWs (s.data.length + 1) none s.data)

-- does w occur anywhere in s as a whole token (word boundaries on both sides)?
def occursTokAux (w : List Char) : Option Char → List Char → Bool
  | _, [] => false
  | prev, c :: rest => (tokMatchAt w prev (c :: rest)).isSome || occursTokAux w (some c) rest

def occursWholeTok (w s : String) : Bool :=
  occursTokAux w.data none s.data

-- greedy whitespace-star followed by a literal, with backtracking (for the
-- region pattern: comma, whitespace-star, literal region, no trailing boundary)
def wsThenLit (r : List Char) : List Char → Option (List Char)
  | [] => litMatchCI r []
  | c :: rest =>
    if pyIsSpace c then
      match wsThenLit r rest with
      | some t => some t
      | none => litMatchCI r (c :: rest)
    else litMatchCI r (c :: rest)

def subRegionGo (r : List Char) : Nat → List Char → List Char
  | 0, s => s
  | _ + 1, [] => []
  | fuel + 1, c :: rest =>
    if c == ',' then
      match wsThenLit r rest with
      | some after => subRegionGo r fuel after
      | none => c :: subRegionGo r fuel rest
    else c :: subRegionGo r fuel rest

def pySubRegion (r s : String) : String :=
  String.mk (subRegionGo r.data (s.data.length + 1) s.data)

-- Python str.replace (plain, case-sensitive, left-to-right non-overlapping)
def replGo (old new : List Char) : Nat → List Char → List Char
  | 0, s => s
  | _ + 1, [] => []
  | fuel + 1, c :: rest =>
    if old.isPrefixOf (c :: rest) then
      new ++ replGo old new fuel (rest.drop (old.length - 1))
    else c :: replGo old new fuel rest

def pyReplace (old new s : String) : String :=
  match old.data with
  | [] => String.mk (new.data ++ (s.data.map (fun c => c :: new.data)).flatten)
  | _ :: _ => String.mk (replGo old.data new.data (s.data.length + 1) s.data)

-- similarity_rules.json: one record per field kind
structure SimRules where
  remove_words : List String
  remove_suffixes : List String
  remove_cities : List String
  remove_regions : List String
  remove_patterns : List String
  replace : List (String × String)

def emptySimRules : SimRules := ⟨[], [], [], [], [], []⟩

-- the character class of letters, digits, whitespace, hyphen, apostrophe
-- used to validate rule words, suffixes, cities and regions
def validRuleChar (c : Char) : Bool :=
  (decide ('a' ≤ c) && decide (c ≤ 'z')) || (decide ('A' ≤ c) && decide (c ≤ 'Z')) ||
    (decide ('0' ≤ c) && decide (c ≤ '9')) || pyIsSpace c || c == '-' || c == Char.ofNat 39

def validRuleWord (w : String) : Bool :=
  !w.data.isEmpty && w.data.all validRuleChar

-- the character class of letters, digits, whitespace, hyphen, star, plus
-- used to validate proposed redundant patterns
def validPattChar (c : Char) : Bool :=
  (decide ('a' ≤ c) && decide (c ≤ 'z')) || (decide ('A' ≤ c) && decide (c ≤ 'Z')) ||
    (decide ('0' ≤ c) && decide (c ≤ '9')) || pyIsSpace c || c == '-' || c == '*' || c == '+'

def validRulePatt (p : String) : Bool :=
  !p.data.isEmpty && p.data.all validPattChar

-- the normalization pipeline of calculate_similarity applied to one string:
-- lower, strip, remove words (whole word plus trailing spaces), then either
-- suffixes and cities (names) or regions (addresses), then literal replacements
def normalizeField (r : SimRules) (is_address : Bool) (s0 : String) : String :=
  let s1 := pyStrip (pyLower s0)
  let s2 := r.remove_words.foldl
    (fun acc w => if validRuleWord w then pySubTok w true acc else acc) s1
  let s3 :=
    if is_address then
      r.remove_regions.foldl
        (fun acc w => if validRuleWord w then pySubRegion w acc else acc) s2
    else
      let sa := r.remove_suffixes.foldl
        (fun acc w => if validRuleWord w then pySubTok w false acc else acc) s2
      r.remove_cities.foldl
        (fun acc w => if validRuleWord w then pySubTok w false acc else acc) sa
  r.replace.foldl (fun acc pr => pyReplace pr.1 pr.2 acc) s3

-- calculate_similarity: ratioFn stands for fuzz.token_sort_ratio, gptSame for
-- the boolean returned by update_similarity_rules_with_gpt.  The second
-- component counts how many times that GPT escalation was invoked.
def calculate_similarity (ratioFn : String → String → Nat) (gptSame : Bool) (r : SimRules)
    (str1 str2 : Option String) (is_address : Bool) : Nat × Nat :=
  if truthyStr str1 && truthyStr str2 then
    if ratioFn (normalizeField r is_address (str1.getD ""))
        (normalizeField r is_address (str2.getD "")) < 50 then
      ((if gptSame then 100 else
        ratioFn (normalizeField r is_address (str1.getD ""))
          (normalizeField r is_address (str2.getD ""))), 1)
    else
      (ratioFn (normalizeField r is_address (str1.getD ""))
        (normalizeField r is_address (str2.getD "")), 0)
  else (0, 0)

-- update_similarity_rules_with_gpt: the parsed JSON reply
structure GptRuleReply where
  is_same : Bool
  redundant_words : List String
  redundant_patterns : List String

def insertNew (l : List String) (x : String) : List String :=
  if l.contains x then l else l ++ [x]

def update_similarity_rules (reply : GptRuleReply) (r : SimRules) : SimRules :=
  if reply.is_same then
    { r with
      remove_words := (reply.redundant_words.filter validRuleWord).foldl insertNew r.remove_words
      remove_patterns :=
        (reply.redundant_patterns.filter validRulePatt).foldl insertNew r.remove_patterns }
  else r

-- calculate_distance: geoKm stands for geopy geodesic kilometers; the Python
-- truthiness test means a missing, null or zero coordinate yields float inf,
-- modelled as none
def calculate_distance (geoKm : ℚ → ℚ → ℚ → ℚ → ℚ) (lat1 lon1 lat2 lon2 : Option ℚ) : Option ℚ :=
  if truthyCoord lat1 && truthyCoord lon1 && truthyCoord lat2 && truthyCoord lon2 then
    some (geoKm (lat1.getD 0) (lon1.getD 0) (lat2.getD 0) (lon2.getD 0) * 1000)
  else none

-- float comparisons against the inf sentinel
def distLtb (d : Option ℚ) (c : ℚ) : Bool :=
  match d with
  | none => false
  | some x => decide (x < c)

def distGtb (d : Option ℚ) (c : ℚ) : Bool :=
  match d with
  | none => true
  | some x => decide (c < x)

-- the composite score block of main
def baseScore (name_sim addr_sim : ℚ) (postal_match : Bool) : ℚ :=
  (3/10 * name_sim + 2/10 * addr_sim + (if postal_match then 3/10 else 0)) / (8/10)

def adjustScore (name_sim addr_sim : ℚ) (postal_match : Bool) (dist : Option ℚ) : ℚ :=
  if distLtb dist 1000 then baseScore name_sim addr_sim postal_match + 30
  else if distGtb dist 5000 then baseScore name_sim addr_sim postal_match - 20
  else baseScore name_sim addr_sim postal_match

-- final score plus whether gpt_fuzzy_match was invoked (the ambiguous band)
def scoreAndArbitrate (name_sim addr_sim : ℚ) (postal_match : Bool) (dist : Option ℚ)
    (adj : ℚ) : ℚ × Bool :=
  if 40 < adjustScore name_sim addr_sim postal_match dist ∧
      adjustScore name_sim addr_sim postal_match dist < 80 then
    (4/10 * adjustScore name_sim addr_sim postal_match dist + 6/10 * adj, true)
  else (adjustScore name_sim addr_sim postal_match dist, false)

-- the postal comparison of main
def postalMatchOf (localPostal : String) (candPostal : Option String) : Bool :=
  if truthyStr candPostal then pyStrip localPostal == pyStrip (candPostal.getD "") else true

def postalNeedsReviewOf (localPostal : String) (candPostal : Option String) : Bool :=
  if truthyStr candPostal then !postalMatchOf localPostal candPostal else false

-- gpt_fuzzy_match response parsing

def splitOnChar (sep : Char) : List Char → List (List Char)
  | [] => [[]]
  | c :: rest =>
    if c == sep then [] :: splitOnChar sep rest
    else
      match splitOnChar sep rest with
      | f :: r => (c :: f) :: r
      | [] => [[c]]

def pyDigitsToNat : List Char → Option Nat
  | [] => none
  | ds =>
    if ds.all Char.isDigit then
      some (ds.foldl (fun n c => n * 10 + (c.toNat - 48)) 0)
    else none

-- Python int() of a stripped string: optional sign then digits
def pyToInt (s : String) : Option Int :=
  match pyStripChars s.data with
  | '+' :: ds => (pyDigitsToNat ds).map (fun n => (n : Int))
  | '-' :: ds => (pyDigitsToNat ds).map (fun n => -(n : Int))
  | ds => (pyDigitsToNat ds).map (fun n => (n : Int))

-- element 1 of line.split(":"), when it exists
def colonField1 (l : List Char) : Option (List Char) :=
  match l.dropWhile (fun c => c != ':') with
  | ':' :: rest => some (rest.takeWhile (fun c => c != ':'))
  | _ => none

def lineStartsWithSim (l : List Char) : Bool :=
  List.isPrefixOf "Similarity:".data l

def parseSimilarityLine (l : List Char) : Option Int :=
  match colonField1 l with
  | some f => pyToInt (String.mk f)
  | none => none

-- the for-loop over response lines: the first line with the Similarity marker
-- is parsed; a parse failure raises inside the try, so the handler returns 80,
-- and falling off the loop also returns 80
def scanSimLines : List (List Char) → Int
  | [] => 80
  | l :: rest =>
    if lineStartsWithSim l then
      match parseSimilarityLine l with
      | some n => n
      | none => 80
    else scanSimLines rest

-- gpt_fuzzy_match: reply none models a raised exception anywhere in the call
def gpt_fuzzy_match (reply : Option String) : Int :=
  match reply with
  | none => 80
  | some t => scanSimLines (splitOnChar '\n' (pyStripChars t.data))

def replyLines : Option String → List (List Char)
  | none => []
  | some t => splitOnChar '\n' (pyStripChars t.data)

-- the address arguments of main: everything before the first comma, with the
-- Python truthiness guard on the candidate address
def pyCommaHead (s : String) : String :=
  String.mk (s.data.takeWhile (fun c => c != ','))

def candAddrArg : Option String → Option String
  | none => none
  | some a => if a.data.isEmpty then none else some (pyCommaHead a)

def addressSimilarityOf (ratioFn : String → String → Nat) (gptSame : Bool) (r : SimRules)
    (localAddr : String) (candAddr : Option String) : Nat :=
  (calculate_similarity ratioFn gptSame r (some (pyCommaHead localAddr))
    (candAddrArg candAddr) true).1

-- Helper lemmas -------------------------------------------------------------

theorem stringMkData (s : String) : String.mk s.data = s := rfl

theorem subTokGo_no_occurrence (w : List Char) (b : Bool) :
    ∀ (fuel : Nat) (prev : Option Char) (s : List Char),
      occursTokAux w prev s = false → subTokGo w b fuel prev s = s := by
  intro fuel
  induction fuel with
  | zero => intro prev s _; rfl
  | succ n ih =>
    intro prev s h
    cases s with
    | nil => rfl
    | cons c rest =>
      have h' : (tokMatchAt w prev (c :: rest)).isSome = false ∧
          occursTokAux w (some c) rest = false := by
        simpa [occursTokAux] using h
      cases hm : tokMatchAt w prev (c :: rest) with
      | some a => rw [hm] at h'; simp at h'
      | none => simp [subTokGo, hm, ih (some c) rest h'.2]

theorem takeWhileNeComma (a t : List Char) (h : ∀ c ∈ a, c ≠ ',') :
    (a ++ ',' :: t).takeWhile (fun c => c != ',') = a := by
  induction a with
  | nil => simp
  | cons c cs ih =>
    have hc : c ≠ ',' := h c (by simp)
    simp only [List.cons_append, List.takeWhile_cons]
    simp [hc, ih (fun x hx => h x (by simp [hx]))]

theorem scanSimLines_default (L : List (List Char))
    (h : ∀ l ∈ L, ¬ (lineStartsWithSim l = true ∧ (parseSimilarityLine l).isSome = true)) :
    scanSimLines L = 80 := by
  induction L with
  | nil => rfl
  | cons l rest ih =>
    have hl := h l (by simp)
    by_cases hs : lineStartsWithSim l
    · cases hp : parseSimilarityLine l with
      | none => simp [scanSimLines, hs, hp]
      | some n => exact absurd ⟨hs, by simp [hp]⟩ hl
    · simp only [scanSimLines, Bool.not_eq_true] at hs ⊢
      rw [hs]
      simpa using ih (fun x hx => h x (by simp [hx]))

theorem mem_foldl_insertNew (l acc : List String) (x : String)
    (h : x ∈ l.foldl insertNew acc) : x ∈ acc ∨ x ∈ l := by
  induction l generalizing acc with
  | nil => exact Or.inl (by simpa using h)
  | cons y ys ih =>
    have h' : x ∈ ys.foldl insertNew (insertNew acc y) := by simpa using h
    rcases ih (insertNew acc y) h' with hmem | hmem
    · unfold insertNew at hmem
      by_cases hc : acc.contains y
      · simp only [hc, if_true] at hmem
        exact Or.inl hmem
      · simp only [hc, Bool.false_eq_true, if_false, List.mem_append,
          List.mem_singleton] at hmem
        rcases hmem with hmem | hmem
        · exact Or.inl hmem
        · exact Or.inr (by simp [hmem])
    · exact Or.inr (by simp [hmem])

theorem pyCommaHead_append (a x : String) (h : ',' ∉ a.data) :
    pyCommaHead (a ++ "," ++ x) = a := by
  unfold pyCommaHead
  have hcomma : ("," : String).data = [','] := rfl
  have hdata : (a ++ "," ++ x).data = a.data ++ ',' :: x.data := by
    rw [String.data_append, String.data_append, hcomma]
    simp
  rw [hdata, takeWhileNeComma a.data x.data (fun c hc hceq => h (hceq ▸ hc))]

-- Claim theorems ------------------------------------------------------------

/-- C2 counterexample: with an absent candidate postal code, main sets
postal_match to true but postal_needs_review to FALSE, refuting the claim that
both flags are true in that case. -/
theorem C2_missing_postal_counterexample :
    postalMatchOf "12345" none = true ∧ ¬ postalNeedsReviewOf "12345" none = true := by
  exact ⟨rfl, by decide⟩

/-- C2 (amended): when the candidate postal code is absent (Python-falsy), the
comparison sets postal_match = true and postal_needs_review = FALSE; when both
codes are present, postal_match is true exactly when the two codes are equal
after trimming. -/
theorem C2_postal_flags_amended (lp : String) (cp : Option String) :
    (truthyStr cp = false →
      postalMatchOf lp cp = true ∧ postalNeedsReviewOf lp cp = false) ∧
    (∀ s, cp = some s → truthyStr cp = true →
      (postalMatchOf lp cp = true ↔ pyStrip lp = pyStrip s)) := by
  constructor
  · intro h
    simp [postalMatchOf, postalNeedsReviewOf, h]
  · intro s hs ht
    subst hs
    simp only [postalMatchOf, ht, if_true, Option.getD_some]
    exact beq_iff_eq

/-- C2 witness: the amended theorem applied at an absent candidate postal code. -/
theorem C2_postal_flags_amended_witness :
    truthyStr none = false ∧
      (postalMatchOf "12345" none = true ∧ postalNeedsReviewOf "12345" none = false) :=
  ⟨rfl, (C2_postal_flags_amended "12345" none).1 rfl⟩

/-- C9: when the candidate postal code is present, postal_needs_review is set to
true exactly on a trimmed mismatch, and to false when the trimmed codes match:
the review flag marks postal mismatches, not only missing data. -/
theorem C9_postal_review_flag (lp s : String) (hs : truthyStr (some s) = true) :
    (pyStrip lp ≠ pyStrip s → postalNeedsReviewOf lp (some s) = true) ∧
    (pyStrip lp = pyStrip s → postalNeedsReviewOf lp (some s) = false) := by
  constructor
  · intro h
    simp only [postalNeedsReviewOf, postalMatchOf, hs, if_true, Option.getD_some]
    simp [h]
  · intro h
    simp only [postalNeedsReviewOf, postalMatchOf, hs, if_true, Option.getD_some]
    simp [h]

/-- C9 witness: the theorem applied at a concrete present-and-different postal
code, giving postal_needs_review = true. -/
theorem C9_postal_review_flag_witness :
    truthyStr (some "22222") = true ∧ pyStrip "11111" ≠ pyStrip "22222" ∧
      postalNeedsReviewOf "11111" (some "22222") = true :=
  ⟨rfl, by decide, (C9_postal_review_flag "11111" "22222" rfl).1 (by decide)⟩

/-- C5 counterexample: the region qualifier "busan" never occurs as a whole
token in "a, busanville", yet the region removal rewrites the string (to
"aville"), corrupting the unrelated word "busanville" — region stripping does
not use word-boundary semantics. -/
theorem C5_whole_token_counterexample :
    occursWholeTok "busan" "a, busanville" = false ∧
    pySubRegion "busan" "a, busanville" ≠ "a, busanville" := by
  exact ⟨rfl, by decide⟩

/-- C5 (amended): rule-store words, suffix phrases and city names are removed
only where they occur as whole tokens (word boundaries on both sides), but
region qualifiers are removed wherever they follow a comma plus optional
whitespace with NO trailing boundary check, so an address substring can be
corrupted (region "seoul" turns "x, seoulite road" into "xite road"). -/
theorem C5_normalization_amended :
    (∀ w s : String, occursWholeTok w s = false → pySubTok w true s = s) ∧
    (∀ w s : String, occursWholeTok w s = false → pySubTok w false s = s) ∧
    pySubRegion "seoul" "x, seoulite road" = "xite road" := by
  refine ⟨?_, ?_, by decide⟩ <;>
  · intro w s h
    unfold pySubTok
    rw [subTokGo_no_occurrence w.data _ _ none s.data h]

/-- C5 witness: the amended theorem applied to the word "hotel" and the string
"hotelling inn", where "hotel" occurs only inside a larger token and so is not
removed. -/
theorem C5_normalization_amended_witness :
    occursWholeTok "hotel" "hotelling inn" = false ∧
      pySubTok "hotel" true "hotelling inn" = "hotelling inn" :=
  ⟨rfl, C5_normalization_amended.1 "hotel" "hotelling inn" rfl⟩

/-- C6 counterexample: the rule-learning step accepts and persists the proposed
redundant pattern consisting of a letter and an asterisk, although that value
violates the letters-digits-spaces-hyphens-apostrophes class the claim says
patterns are validated against: patterns use a DIFFERENT class. -/
theorem C6_pattern_class_counterexample :
    (update_similarity_rules ⟨true, [], ["a*"]⟩ emptySimRules).remove_patterns = ["a*"] ∧
    validRuleWord "a*" = false := by
  exact ⟨by decide, by decide⟩

/-- C6 (amended): proposed redundant words are validated against the
letters-digits-whitespace-hyphen-apostrophe class, while proposed redundant
patterns are validated against a different class that also admits asterisk and
plus but rejects apostrophes; only values passing their own class are ever
persisted, and rejected values are dropped without raising. -/
theorem C6_rule_validation_amended (reply : GptRuleReply) (r : SimRules) :
    (∀ w, w ∈ (update_similarity_rules reply r).remove_words →
      w ∈ r.remove_words ∨ validRuleWord w = true) ∧
    (∀ p, p ∈ (update_similarity_rules reply r).remove_patterns →
      p ∈ r.remove_patterns ∨ validRulePatt p = true) := by
  unfold update_similarity_rules
  by_cases hs : reply.is_same = true
  · simp only [hs, if_true]
    constructor
    · intro w hw
      rcases mem_foldl_insertNew _ _ _ hw with h | h
      · exact Or.inl h
      · exact Or.inr (List.mem_filter.mp h).2
    · intro p hp
      rcases mem_foldl_insertNew _ _ _ hp with h | h
      · exact Or.inl h
      · exact Or.inr (List.mem_filter.mp h).2
  · simp only [hs, Bool.false_eq_true, if_false]
    exact ⟨fun w hw => Or.inl hw, fun p hp => Or.inl hp⟩

/-- C6 witness: the amended theorem applied at a concrete reply whose proposed
word passes the word class and is persisted. -/
theorem C6_rule_validation_amended_witness :
    ("ok" ∈ (update_similarity_rules ⟨true, ["ok"], []⟩ emptySimRules).remove_words) ∧
      ("ok" ∈ emptySimRules.remove_words ∨ validRuleWord "ok" = true) :=
  ⟨by decide,
    (C6_rule_validation_amended ⟨true, ["ok"], []⟩ emptySimRules).1 "ok" (by decide)⟩

/-- C1 counterexample: the code applies no clamp — with all sub-scores zero, a
postal mismatch and a far distance, the returned composite score is -20,
outside the claimed [0, 100] range. -/
theorem C1_no_clamp_counterexample :
    (scoreAndArbitrate 0 0 false (some 10000) 0).1 = -20 ∧
    ¬ (0 ≤ (scoreAndArbitrate 0 0 false (some 10000) 0).1) := by
  have h : (scoreAndArbitrate 0 0 false (some 10000) 0).1 = -20 := by
    norm_num [scoreAndArbitrate, adjustScore, baseScore, distLtb, distGtb]
  exact ⟨h, by rw [h]; norm_num⟩

/-- C1 (amended): no clamping is performed; for name and address similarities in
[0, 100] and an adjudicator score in [0, 100], the returned composite score lies
in [-20, 100] — the lower clamp is genuinely violated by the far-distance
penalty, while the upper bound holds only arithmetically because the weighted
base never exceeds 62.875. -/
theorem C1_score_range_amended (n a g : ℚ) (p : Bool) (d : Option ℚ)
    (hn0 : 0 ≤ n) (hn1 : n ≤ 100) (ha0 : 0 ≤ a) (ha1 : a ≤ 100)
    (hg0 : 0 ≤ g) (hg1 : g ≤ 100) :
    -20 ≤ (scoreAndArbitrate n a p d g).1 ∧ (scoreAndArbitrate n a p d g).1 ≤ 100 := by
  have hbase : baseScore n a p =
      (3/10 * n + 2/10 * a + (if p then (3:ℚ)/10 else 0)) * (5/4) := by
    unfold baseScore; ring
  have ht0 : (0:ℚ) ≤ (if p then (3:ℚ)/10 else 0) := by split <;> norm_num
  have ht1 : (if p then (3:ℚ)/10 else 0) ≤ 3/10 := by split <;> norm_num
  have hb0 : 0 ≤ baseScore n a p := by rw [hbase]; nlinarith
  have hb1 : baseScore n a p ≤ 503/8 := by rw [hbase]; nlinarith
  have hs0 : -20 ≤ adjustScore n a p d := by
    unfold adjustScore; split
    · linarith
    · split <;> linarith
  have hs1 : adjustScore n a p d ≤ 743/8 := by
    unfold adjustScore; split
    · linarith
    · split <;> linarith
  unfold scoreAndArbitrate
  split
  · next hband => constructor <;> [linarith [hband.1]; linarith [hband.2]]
  · constructor <;> linarith

/-- C1 witness: the amended theorem at concrete inputs. -/
theorem C1_score_range_amended_witness :
    ((0:ℚ) ≤ 0 ∧ (0:ℚ) ≤ 100) ∧
      (-20 ≤ (scoreAndArbitrate 0 0 false none 0).1 ∧
        (scoreAndArbitrate 0 0 false none 0).1 ≤ 100) :=
  ⟨⟨by norm_num, by norm_num⟩,
    C1_score_range_amended 0 0 0 false none (by norm_num) (by norm_num) (by norm_num)
      (by norm_num) (by norm_num) (by norm_num)⟩

/-- C3: the adjudicator is invoked exactly when the distance-adjusted composite
score lies strictly between 40 and 80; in that band, with an adjudicator score
in [0, 100], the final score is the 0.4/0.6 blend, which coincides with its
clamp to [0, 100]; outside the band the adjusted score is returned unchanged. -/
theorem C3_arbitration_band (n a : ℚ) (p : Bool) (d : Option ℚ) (g : ℚ)
    (hg0 : 0 ≤ g) (hg1 : g ≤ 100) :
    ((scoreAndArbitrate n a p d g).2 = true ↔
      (40 < adjustScore n a p d ∧ adjustScore n a p d < 80)) ∧
    ((40 < adjustScore n a p d ∧ adjustScore n a p d < 80) →
      (scoreAndArbitrate n a p d g).1 =
        min 100 (max 0 (4/10 * adjustScore n a p d + 6/10 * g)) ∧
      (scoreAndArbitrate n a p d g).1 = 4/10 * adjustScore n a p d + 6/10 * g) ∧
    (¬ (40 < adjustScore n a p d ∧ adjustScore n a p d < 80) →
      (scoreAndArbitrate n a p d g).1 = adjustScore n a p d) := by
  unfold scoreAndArbitrate
  by_cases hband : 40 < adjustScore n a p d ∧ adjustScore n a p d < 80
  · rw [if_pos hband]
    have hv0 : 0 ≤ 4/10 * adjustScore n a p d + 6/10 * g := by linarith [hband.1]
    have hv1 : 4/10 * adjustScore n a p d + 6/10 * g ≤ 100 := by linarith [hband.2]
    refine ⟨by simp [hband], fun _ => ⟨?_, rfl⟩, fun hn => absurd hband hn⟩
    rw [max_eq_right hv0, min_eq_right hv1]
  · rw [if_neg hband]
    exact ⟨by simp [hband], fun h => absurd h hband, fun _ => rfl⟩

/-- C3 witness: base composite score 60 (name 100, address 90, postal mismatch,
mid-band distance) with adjudicator score 90 gives final score 78, with the
adjudicator invoked. -/
theorem C3_arbitration_band_witness :
    (scoreAndArbitrate 100 90 false (some 2000) 90).2 = true ∧
      (scoreAndArbitrate 100 90 false (some 2000) 90).1 = 78 := by
  have hband : 40 < adjustScore 100 90 false (some 2000) ∧
      adjustScore 100 90 false (some 2000) < 80 := by
    norm_num [adjustScore, baseScore, distLtb, distGtb]
  have h := C3_arbitration_band 100 90 false (some 2000) 90 (by norm_num) (by norm_num)
  refine ⟨h.1.mpr hband, ?_⟩
  rw [(h.2.1 hband).2]
  norm_num [adjustScore, baseScore, distLtb, distGtb]

/-- C8: a missing, null or zero coordinate makes calculate_distance return the
infinity sentinel, and the composite scorer then takes the far band: 20 is
subtracted from the base score, and the +30 near bonus can never apply. -/
theorem C8_distance_sentinel (geoKm : ℚ → ℚ → ℚ → ℚ → ℚ) (lat1 lon1 lat2 lon2 : Option ℚ)
    (h : truthyCoord lat1 = false ∨ truthyCoord lon1 = false ∨
      truthyCoord lat2 = false ∨ truthyCoord lon2 = false) :
    calculate_distance geoKm lat1 lon1 lat2 lon2 = none ∧
    (∀ n a p, adjustScore n a p (calculate_distance geoKm lat1 lon1 lat2 lon2) =
      baseScore n a p - 20) := by
  have hd : calculate_distance geoKm lat1 lon1 lat2 lon2 = none := by
    unfold calculate_distance
    rcases h with h | h | h | h <;> simp [h]
  refine ⟨hd, fun n a p => ?_⟩
  rw [hd]
  simp [adjustScore, distLtb, distGtb]

/-- C8 witness: a zero latitude on the local side yields the sentinel and the
far-band penalty. -/
theorem C8_distance_sentinel_witness :
    truthyCoord (some 0) = false ∧
      calculate_distance (fun _ _ _ _ => 0) (some 0) (some 1) (some 1) (some 1) = none ∧
      adjustScore 50 50 true
          (calculate_distance (fun _ _ _ _ => 0) (some 0) (some 1) (some 1) (some 1)) =
        baseScore 50 50 true - 20 := by
  have h := C8_distance_sentinel (fun _ _ _ _ => 0) (some 0) (some 1) (some 1) (some 1)
    (Or.inl (by decide))
  exact ⟨by decide, h.1, h.2 50 50 true⟩

/-- C4: on any adjudicator failure — a raised exception (reply = none) or a
reply none of whose lines both starts with the Similarity marker and carries a
parsable integer — gpt_fuzzy_match returns exactly 80, and blending a base
score of 55 with that default yields 70; the embedded function is total, so no
exception propagates. -/
theorem C4_adjudicator_fallback (reply : Option String)
    (h : ∀ l ∈ replyLines reply,
      ¬ (lineStartsWithSim l = true ∧ (parseSimilarityLine l).isSome = true)) :
    gpt_fuzzy_match reply = 80 ∧
    (scoreAndArbitrate 100 70 false (some 2000) ((gpt_fuzzy_match reply : Int) : ℚ)).1 = 70 := by
  have h80 : gpt_fuzzy_match reply = 80 := by
    cases reply with
    | none => rfl
    | some t => exact scanSimLines_default _ (by simpa [replyLines] using h)
  refine ⟨h80, ?_⟩
  rw [h80]
  norm_num [scoreAndArbitrate, adjustScore, baseScore, distLtb, distGtb]

/-- C4 witness: a reply whose Similarity line has no parsable integer falls back
to the default 80, and a base score of 55 blends to 70. -/
theorem C4_adjudicator_fallback_witness :
    (∀ l ∈ replyLines (some "Similarity: maybe"),
      ¬ (lineStartsWithSim l = true ∧ (parseSimilarityLine l).isSome = true)) ∧
      gpt_fuzzy_match (some "Similarity: maybe") = 80 ∧
      (scoreAndArbitrate 100 70 false (some 2000)
        ((gpt_fuzzy_match (some "Similarity: maybe") : Int) : ℚ)).1 = 70 := by
  have hcond : ∀ l ∈ replyLines (some "Similarity: maybe"),
      ¬ (lineStartsWithSim l = true ∧ (parseSimilarityLine l).isSome = true) := by decide
  have h := C4_adjudicator_fallback (some "Similarity: maybe") hcond
  exact ⟨hcond, h.1, h.2⟩

/-- C7: within one similarity comparison, the GPT rule-suggestion step runs at
most once, exactly when both inputs are truthy and the lexical ratio of the
normalized strings is below 50; when it judges the strings the same, the
comparison returns similarity 100, with no re-scoring loop. -/
theorem C7_single_escalation (ratioFn : String → String → Nat) (gptSame : Bool)
    (r : SimRules) (s1 s2 : Option String) (ia : Bool) :
    ((calculate_similarity ratioFn gptSame r s1 s2 ia).2 ≤ 1) ∧
    ((calculate_similarity ratioFn gptSame r s1 s2 ia).2 = 1 ↔
      (truthyStr s1 = true ∧ truthyStr s2 = true ∧
        ratioFn (normalizeField r ia (s1.getD "")) (normalizeField r ia (s2.getD "")) < 50)) ∧
    ((truthyStr s1 = true ∧ truthyStr s2 = true ∧
        ratioFn (normalizeField r ia (s1.getD "")) (normalizeField r ia (s2.getD "")) < 50 ∧
        gptSame = true) →
      (calculate_similarity ratioFn gptSame r s1 s2 ia).1 = 100) := by
  unfold calculate_similarity
  by_cases ht : truthyStr s1 && truthyStr s2
  · have ht' : truthyStr s1 = true ∧ truthyStr s2 = true := by
      simpa [Bool.and_eq_true] using ht
    rw [if_pos ht]
    by_cases hr : ratioFn (normalizeField r ia (s1.getD ""))
        (normalizeField r ia (s2.getD "")) < 50
    · rw [if_pos hr]
      refine ⟨le_refl 1, by simp [ht'.1, ht'.2, hr], fun hc => ?_⟩
      simp [hc.2.2.2]
    · rw [if_neg hr]
      exact ⟨by norm_num, by simp [hr], fun hc => absurd hc.2.2.1 hr⟩
  · rw [if_neg ht]
    have ht' : ¬ (truthyStr s1 = true ∧ truthyStr s2 = true) := by
      simpa [Bool.and_eq_true] using ht
    exact ⟨by norm_num,
      ⟨fun h01 => by simp at h01, fun hc => absurd ⟨hc.1, hc.2.1⟩ ht'⟩,
      fun hc => absurd ⟨hc.1, hc.2.1⟩ ht'⟩

/-- C7 witness: the theorem at a concrete low-ratio comparison with a positive
GPT verdict, yielding score 100 after exactly one invocation. -/
theorem C7_single_escalation_witness :
    (calculate_similarity (fun _ _ => 30) true emptySimRules (some "abc") (some "xyz") false).1
        = 100 ∧
      (calculate_similarity (fun _ _ => 30) true emptySimRules (some "abc") (some "xyz") false).2
        = 1 := by
  have h := C7_single_escalation (fun _ _ => 30) true emptySimRules (some "abc") (some "xyz") false
  exact ⟨h.2.2 ⟨rfl, rfl, by norm_num, rfl⟩, h.2.1.mpr ⟨rfl, rfl, by norm_num⟩⟩

/-- C10: address similarity is computed only over the text before the first
comma of each address — text after the first comma of either side never changes
the address sub-score — and a null candidate address yields similarity 0. -/
theorem C10_address_comma_scope (ratioFn : String → String → Nat) (gptSame : Bool)
    (r : SimRules) :
    (∀ (a x y : String) (c : Option String), (',' ∉ a.data) →
      addressSimilarityOf ratioFn gptSame r (a ++ "," ++ x) c =
        addressSimilarityOf ratioFn gptSame r (a ++ "," ++ y) c) ∧
    (∀ (l b x y : String), (',' ∉ b.data) →
      addressSimilarityOf ratioFn gptSame r l (some (b ++ "," ++ x)) =
        addressSimilarityOf ratioFn gptSame r l (some (b ++ "," ++ y))) ∧
    (∀ l, addressSimilarityOf ratioFn gptSame r l none = 0) := by
  have hne : ∀ (b x : String), (b ++ "," ++ x).data.isEmpty = false := by
    intro b x
    have : (b ++ "," ++ x).data = b.data ++ ',' :: x.data := by
      rw [String.data_append, String.data_append]
      simp
    simp [this]
  refine ⟨?_, ?_, ?_⟩
  · intro a x y c h
    unfold addressSimilarityOf
    rw [pyCommaHead_append a x h, pyCommaHead_append a y h]
  · intro l b x y h
    unfold addressSimilarityOf
    simp only [candAddrArg, hne b x, hne b y, Bool.false_eq_true, if_false]
    rw [pyCommaHead_append b x h, pyCommaHead_append b y h]
  · intro l
    unfold addressSimilarityOf
    simp [candAddrArg, calculate_similarity, truthyStr]

/-- C10 witness: the theorem applied at concrete addresses differing only after
the first comma. -/
theorem C10_address_comma_scope_witness :
    (',' ∉ ("5 Gil" : String).data) ∧
      addressSimilarityOf (fun _ _ => 77) false emptySimRules ("5 Gil" ++ "," ++ " Seoul")
          (some "z") =
        addressSimilarityOf (fun _ _ => 77) false emptySimRules ("5 Gil" ++ "," ++ " Busan")
          (some "z") :=
  ⟨by decide,
    (C10_address_comma_scope (fun _ _ => 77) false emptySimRules).1 "5 Gil" " Seoul" " Busan"
      (some "z") (by decide)⟩
